import Mathlib

/-
  Verification development for the real-time update relay of the pesohq grid
  repository.  The definitions below are a shallow embedding of
  src/websocket-server/server.js (the MongoDB-backed relay), its companion
  src/websocket-server/db.js, and the standalone synthetic generator of
  src/scripts/websocket-server.js.
-/

set_option maxHeartbeats 1000000

namespace Relay

/-- A JavaScript value as it appears in a parsed JSON message.  `undef` models
the JavaScript `undefined` produced by destructuring a missing field
(`const { rowId, columnId, newValue } = message`). -/
inductive JSValue where
  | str (s : String)
  | num (n : Int)
  | bool (b : Bool)
  | null
  | undef
deriving DecidableEq, Repr

/-- An inbound frame as seen by the `ws.on("message")` handler.  `invalid`
models a payload on which `JSON.parse(data.toString())` throws; `msg` models a
successfully parsed object, with each destructured field either present or
`undef` when absent.  `tsField` models a client-supplied `timestamp` field,
which the handler never reads. -/
inductive Raw where
  | invalid
  | msg (type rowId columnId newValue tsField : JSValue)
deriving DecidableEq, Repr

/-- Outcome of the persistence adapter call `await updateCell(rowId, columnId,
newValue)` in db.js: `ok b` models a normal return of `result.modifiedCount > 0`,
and `exn` models the rethrow in updateCell's catch block (a store error or
timeout). -/
inductive PersistOutcome where
  | ok (b : Bool)
  | exn
deriving DecidableEq, Repr

/-- An outbound JSON object, modelled as its ordered field list. -/
abbrev OutObj := List (String × JSValue)

/-- The broadcast message built in the message handler (server.js lines
224-230): `JSON.stringify({type: 'update', rowId, columnId, newValue,
timestamp: new Date().toISOString()})`.  `now` is the relay's own clock
reading at construction time. -/
def broadcastObj (r c v : JSValue) (now : String) : OutObj :=
  [("type", JSValue.str "update"), ("rowId", r), ("columnId", c),
   ("newValue", v), ("timestamp", JSValue.str now)]

/-- The synthetic generator's message (scripts/websocket-server.js lines 82-87
and the timer-driven relay variant): `JSON.stringify({type: "update", rowId,
columnId, newValue})`.  Note it has no timestamp field. -/
def syntheticMessage (rowId columnId : String) (v : JSValue) : OutObj :=
  [("type", JSValue.str "update"), ("rowId", JSValue.str rowId),
   ("columnId", JSValue.str columnId), ("newValue", v)]

/-- The observable effects of one run of the `ws.on("message")` handler on a
single inbound frame, before fan-out: whether `updateCell` was invoked and
with which arguments, the broadcast object constructed (if any), any direct
reply to the sender, any mutation of the `clients` registry, whether the
handler closed the originating connection, and whether an exception escaped
the handler (crashing the relay). -/
structure HandlerResult where
  persistCalled : Bool
  persistArgs : Option (JSValue × JSValue × JSValue)
  broadcast : Option OutObj
  reply : Option OutObj
  registryOps : List JSValue
  closesConnection : Bool
  crashed : Bool
deriving DecidableEq, Repr

/-- A `HandlerResult` in which nothing happened beyond logging. -/
def noEffect : HandlerResult :=
  ⟨false, none, none, none, [], false, false⟩

/-- Shallow embedding of the `ws.on("message")` handler of
src/websocket-server/server.js (lines 210-244).  The whole body is wrapped in
try/catch, so a parse failure or an exception rethrown by `updateCell` is
caught and logged (`crashed = false`).  Only a message whose `type` field is
the string "update" reaches persistence; the broadcast is constructed only
when `updateCell` resolves to `true` (the `if (success)` guard).  The handler
never replies to the sender, never touches the `clients` set, and never closes
the connection. -/
def handleMessage (persist : JSValue → JSValue → JSValue → PersistOutcome)
    (now : String) : Raw → HandlerResult
  | Raw.invalid => noEffect
  | Raw.msg t r c v _ts =>
    if t = JSValue.str "update" then
      match persist r c v with
      | PersistOutcome.exn => ⟨true, some (r, c, v), none, none, [], false, false⟩
      | PersistOutcome.ok success =>
        if success then
          ⟨true, some (r, c, v), some (broadcastObj r c v now), none, [], false, false⟩
        else
          ⟨true, some (r, c, v), none, none, [], false, false⟩
    else noEffect

/-- ws readyState constant `WebSocket.OPEN`. -/
def WS_OPEN : Nat := 1

/-- One entry of the `clients` set: an opaque identity plus the transport's
current readyState. -/
structure Client where
  id : Nat
  readyState : Nat
deriving DecidableEq, Repr

/-- The fan-out loop (server.js lines 232-236): `clients.forEach((client) => {
if (client.readyState === WebSocket.OPEN) client.send(broadcastMessage) })`.
Returns the list of (recipient id, message) send calls issued, in registry
order.  The originating connection is not special-cased: the loop does not
even receive it as an argument. -/
def broadcastSend (clients : List Client) (m : OutObj) : List (Nat × OutObj) :=
  (clients.filter fun c => c.readyState == WS_OPEN).map fun c => (c.id, m)

/-- Per ws semantics, `client.send` on an OPEN socket reports failures
asynchronously via the connection's error event, never by throwing into the
`forEach` loop; so every open client receives a send attempt, and the ones
whose transport rejects the write are the ones whose id satisfies
`sendFails`.  The successfully delivered recipients: -/
def deliveredTo (clients : List Client) (sendFails : Nat → Bool) : List Nat :=
  ((clients.filter fun c => c.readyState == WS_OPEN).filter
    fun c => !sendFails c.id).map fun c => c.id

/-- The `ws.on("error")` handler (server.js lines 205-208) runs
`clients.delete(ws)` for each connection whose send failed; the registry after
those error events have been processed. -/
def registryAfterBroadcast (clients : List Client) (sendFails : Nat → Bool) :
    List Client :=
  clients.filter fun c => !(c.readyState == WS_OPEN && sendFails c.id)

/-- The fixed base of `updateableColumns` (server.js lines 248-253). -/
def baseColumns : List String :=
  ["revenue", "expenses", "profit", "employees",
   "status", "verified", "premium", "subscription_tier",
   "total_score", "risk_factor", "satisfaction_score",
   "engagement_rate", "conversion_rate"]

/-- The metric columns pushed by the loop `for (let i = 1; i <= 20; i++)`
(server.js lines 256-261), in push order. -/
def metricColumns : List String :=
  (List.range' 1 20).flatMap fun i =>
    ["performance_metric_" ++ toString i, "sales_metric_" ++ toString i,
     "behavior_metric_" ++ toString i, "kpi_" ++ toString i]

/-- The full `updateableColumns` array after the push loop has run. -/
def updateableColumns : List String := baseColumns ++ metricColumns

/-- Substring containment, modelling JavaScript `String.prototype.includes`. -/
def strIncludes (hay needle : String) : Bool :=
  decide (needle.toList <:+: hay.toList)

/-- Shallow embedding of `generateUpdateValue` (server.js lines 264-295).  The
single `Math.random()` draw the JS function makes is modelled by an abstract
natural `r`: `Math.floor(Math.random() * k)` becomes `r % k`,
`Math.random() > 0.5` becomes `r % 2 == 1`, array indexing by the scaled draw
becomes `getD (r % 4)`, and `(...).toFixed(2)`, which yields a decimal string,
is abstracted to the numeral string of the scaled draw. -/
def generateUpdateValue (columnId : String) (r : Nat) : JSValue :=
  if columnId = "revenue" ∨ columnId = "expenses" then
    JSValue.num (r % 1000000)
  else if columnId = "profit" then JSValue.num (r % 200000)
  else if columnId = "employees" then JSValue.num (r % 1000 + 10)
  else if columnId = "status" then
    JSValue.str (if r % 2 == 1 then "Active" else "Inactive")
  else if columnId = "verified" ∨ columnId = "premium" then
    JSValue.bool (r % 2 == 1)
  else if columnId = "subscription_tier" then
    JSValue.str (["Free", "Basic", "Pro", "Enterprise"].getD (r % 4) "Free")
  else if columnId = "total_score" ∨ columnId = "risk_factor" ∨
      columnId = "satisfaction_score" ∨ columnId = "engagement_rate" ∨
      columnId = "conversion_rate" then
    JSValue.str (toString (r % 100))
  else if strIncludes columnId "performance_metric" ∨ strIncludes columnId "kpi" then
    JSValue.str (toString (r % 100))
  else if strIncludes columnId "sales_metric" ∨ strIncludes columnId "behavior_metric" then
    JSValue.num (r % 10000)
  else JSValue.num (r % 1000)

/-- State of the synthetic periodic generator: the `clients` set and the
position reached in an abstract stream of `Math.random()` draws. -/
structure GenState where
  clients : List Client
  ridx : Nat
deriving DecidableEq, Repr

/-- Result of one timer tick: the successor state, the message constructed
during the tick (if any), and the send calls issued. -/
structure TickResult where
  state : GenState
  constructed : Option OutObj
  sends : List (Nat × OutObj)
deriving Repr

/-- Shallow embedding of the `setInterval` callback of the synthetic generator
(scripts/websocket-server.js lines 76-97; identically in the timer-driven
relay variant at lines 99-120).  The whole body is guarded by
`if (clients.size > 0)`: with no connected clients nothing is drawn from the
random stream, no message is constructed, and nothing is sent.  Otherwise a
pseudo-random row, column and value are drawn and the (timestamp-free)
synthetic message is sent to every open client. -/
def tick (rand : Nat → Nat) (s : GenState) : TickResult :=
  if s.clients.length > 0 then
    let r1 := rand s.ridx
    let r2 := rand (s.ridx + 1)
    let r3 := rand (s.ridx + 2)
    let rowId := "row_" ++ toString (r1 % 1000)
    let columnId := updateableColumns.getD (r2 % updateableColumns.length) ""
    let value := generateUpdateValue columnId r3
    let m := syntheticMessage rowId columnId value
    ⟨⟨s.clients, s.ridx + 3⟩, some m, broadcastSend s.clients m⟩
  else ⟨s, none, []⟩

/-- The externally visible actions of the SIGINT handler, in the order the
code performs them. -/
inductive ShutAction where
  | closeClient (id : Nat)
  | closeWss
  | closeMongo
  | closeHttp
  | exitProc (code : Nat)
deriving DecidableEq, Repr

/-- Shallow embedding of the `process.on("SIGINT")` handler (server.js lines
308-327): close every registered connection with code 1000 ("Server shutting
down"), then `wss.close`, then in its callback `closeConnection()` (the
MongoDB client), then `server.close`, then `process.exit(0)`.  `closeFails`
records which individual connection closes fail at the transport; per ws
semantics `close` reports such failures asynchronously and never throws into
the `forEach` loop, so the handler's action sequence does not depend on it. -/
def shutdownTrace (clients : List Nat) (_closeFails : Nat → Bool) :
    List ShutAction :=
  clients.map ShutAction.closeClient ++
    [ShutAction.closeWss, ShutAction.closeMongo, ShutAction.closeHttp,
     ShutAction.exitProc 0]

/-- An update accepted by the relay: the broadcast fields plus the
server-assigned acceptance timestamp.  Between stamping the timestamp and
issuing every send of the fan-out loop the handler has no suspension point,
so accepted updates reach the per-connection transport queues in acceptance
order; a relay execution is therefore modelled by its list of accepted
updates in acceptance order. -/
structure Accepted where
  rowId : String
  columnId : String
  value : JSValue
  ts : Nat
deriving DecidableEq, Repr

/-- Whether an accepted update targets cell (r, c). -/
def targets (r c : String) (u : Accepted) : Bool :=
  u.rowId == r && u.columnId == c

/-- A client grid: the cell writes applied so far, most recent first. -/
abbrev Grid := List ((String × String) × JSValue)

/-- A client applies one received update message to its grid: set the cell to
the new value (recorded by prepending, so the most recent write shadows
earlier ones). -/
def applyUpdate (g : Grid) (u : Accepted) : Grid :=
  ((u.rowId, u.columnId), u.value) :: g

/-- The value a client's grid currently shows for cell (r, c). -/
def lookupCell (g : Grid) (r c : String) : Option JSValue :=
  (g.find? fun p => p.1 == (r, c)).map fun p => p.2

/-- Delivery of one broadcast: every connection in `conns` (open for the whole
execution) has the update appended to its inbox. -/
def deliverOne (conns : List Nat) (ib : Nat → List Accepted) (u : Accepted) :
    Nat → List Accepted :=
  fun i => if i ∈ conns then ib i ++ [u] else ib i

/-- The inbox of each connection after the relay has broadcast the whole
trace, one accepted update at a time, in acceptance order. -/
def runTrace (conns : List Nat) (trace : List Accepted) : Nat → List Accepted :=
  trace.foldl (deliverOne conns) fun _ => []

/-- Claim C1, counterexample.  A fully well-formed `update` whose persistence
write resolves to `false` (and likewise one whose write throws) is NOT
broadcast: the `if (success)` guard in the handler gates the broadcast on the
persistence outcome, contrary to the claim that persistence is best-effort
and never gates the broadcast. -/
theorem broadcast_requires_persist_success_cex :
    (handleMessage (fun _ _ _ => PersistOutcome.ok false) "2026-01-01T00:00:00.000Z"
        (Raw.msg (JSValue.str "update") (JSValue.str "row_42") (JSValue.str "revenue")
          (JSValue.num 500000) JSValue.undef)).broadcast = none
    ∧ (handleMessage (fun _ _ _ => PersistOutcome.exn) "2026-01-01T00:00:00.000Z"
        (Raw.msg (JSValue.str "update") (JSValue.str "row_42") (JSValue.str "revenue")
          (JSValue.num 500000) JSValue.undef)).broadcast = none :=
  ⟨rfl, rfl⟩

/-- Claim C1, amended.  For a well-formed inbound `update`, the relay
broadcasts the resulting outbound message exactly when the persistence write
returns `true`; when the write throws, times out, or returns `false` the
update is logged and dropped with no broadcast, and in every case the failure
is absorbed by the handler's try/catch rather than crashing the relay. -/
theorem broadcast_iff_persist_success
    (persist : JSValue → JSValue → JSValue → PersistOutcome) (now : String)
    (r c v ts : JSValue) :
    (handleMessage persist now (Raw.msg (JSValue.str "update") r c v ts)).crashed = false
    ∧ ((handleMessage persist now
          (Raw.msg (JSValue.str "update") r c v ts)).broadcast.isSome = true
        ↔ persist r c v = PersistOutcome.ok true) := by
  simp only [handleMessage, if_true]
  cases hp : persist r c v with
  | exn => simp
  | ok b => cases b <;> simp

/-- Claim C4, counterexample.  An `update` message in which all of `rowId`,
`columnId` and `newValue` are missing (destructured to `undefined`) still
triggers a persistence write — `updateCell` is invoked with the undefined
arguments — contradicting the claim that no persistence write is attempted
for such a message. -/
theorem malformed_update_persist_attempted_cex :
    (handleMessage (fun _ _ _ => PersistOutcome.ok false) "2026-01-01T00:00:00.000Z"
        (Raw.msg (JSValue.str "update") JSValue.undef JSValue.undef JSValue.undef
          JSValue.undef)).persistCalled = true
    ∧ (handleMessage (fun _ _ _ => PersistOutcome.ok false) "2026-01-01T00:00:00.000Z"
        (Raw.msg (JSValue.str "update") JSValue.undef JSValue.undef JSValue.undef
          JSValue.undef)).persistArgs
      = some (JSValue.undef, JSValue.undef, JSValue.undef) :=
  ⟨rfl, rfl⟩

/-- Claim C4, amended.  Non-structured garbage fails to parse and is logged
and dropped with no broadcast, no persistence attempt, no crash and the
connection left open; a parsed message missing `type` (or with a non-"update"
`type`) is likewise dropped with no persistence attempt and no broadcast; an
`update` missing any of `rowId`/`columnId`/`newValue` does trigger a
persistence write (with `undefined` standing in for the missing fields), and
is broadcast only if that write reports success — in every case the relay
does not crash and the originating connection stays open. -/
theorem decode_robustness
    (persist : JSValue → JSValue → JSValue → PersistOutcome) (now : String) :
    handleMessage persist now Raw.invalid = noEffect
    ∧ (∀ t r c v ts, t ≠ JSValue.str "update" →
        handleMessage persist now (Raw.msg t r c v ts) = noEffect)
    ∧ (∀ r c v ts, r = JSValue.undef ∨ c = JSValue.undef ∨ v = JSValue.undef →
        (handleMessage persist now (Raw.msg (JSValue.str "update") r c v ts)).persistCalled
            = true
        ∧ ((handleMessage persist now
              (Raw.msg (JSValue.str "update") r c v ts)).broadcast.isSome = true
            ↔ persist r c v = PersistOutcome.ok true)
        ∧ (handleMessage persist now
            (Raw.msg (JSValue.str "update") r c v ts)).crashed = false
        ∧ (handleMessage persist now
            (Raw.msg (JSValue.str "update") r c v ts)).closesConnection = false) := by
  refine ⟨rfl, ?_, ?_⟩
  · intro t r c v ts ht
    simp only [handleMessage]
    rw [if_neg ht]
  · intro r c v ts _
    simp only [handleMessage, if_true]
    cases hp : persist r c v with
    | exn => simp
    | ok b => cases b <;> simp

/-- Claim C4, witness instance of the amended theorem at concrete inputs. -/
theorem decode_robustness_witness :
    (handleMessage (fun _ _ _ => PersistOutcome.ok false) "T"
        (Raw.msg (JSValue.str "update") JSValue.undef JSValue.undef JSValue.undef
          JSValue.undef)).persistCalled = true
    ∧ handleMessage (fun _ _ _ => PersistOutcome.ok false) "T" Raw.invalid = noEffect :=
  ⟨((decode_robustness (fun _ _ _ => PersistOutcome.ok false) "T").2.2
      JSValue.undef JSValue.undef JSValue.undef JSValue.undef (Or.inl rfl)).1,
   (decode_robustness (fun _ _ _ => PersistOutcome.ok false) "T").1⟩

/-- Claim C10.  A well-formed (parseable) inbound message whose `type` field
is anything other than the string "update" falls through the handler's single
`if`: no persistence call, no broadcast, no reply to the sender, no registry
mutation, no connection close, no crash. -/
theorem non_update_message_ignored
    (persist : JSValue → JSValue → JSValue → PersistOutcome) (now : String)
    (t r c v ts : JSValue) (h : t ≠ JSValue.str "update") :
    handleMessage persist now (Raw.msg t r c v ts) = noEffect := by
  simp only [handleMessage]
  rw [if_neg h]

/-- Claim C10, witness: a concrete "ping" message is fully ignored. -/
theorem non_update_message_ignored_witness :
    handleMessage (fun _ _ _ => PersistOutcome.exn) "T"
      (Raw.msg (JSValue.str "ping") JSValue.undef JSValue.undef JSValue.undef
        JSValue.undef) = noEffect :=
  non_update_message_ignored (fun _ _ _ => PersistOutcome.exn) "T"
    (JSValue.str "ping") JSValue.undef JSValue.undef JSValue.undef JSValue.undef
    (by decide)

/-- Claim C2.  For every registry and every broadcast message, the fan-out
loop issues a send of that exact message to every currently-open connection —
including the originator, which the loop does not special-case (it is not even
an input of the loop) — and issues sends to nothing but open registered
connections. -/
theorem fanout_completeness (clients : List Client) (m : OutObj) (orig : Client)
    (horig : orig ∈ clients) (hopen : orig.readyState = WS_OPEN) :
    (orig.id, m) ∈ broadcastSend clients m
    ∧ (∀ c ∈ clients, c.readyState = WS_OPEN → (c.id, m) ∈ broadcastSend clients m)
    ∧ (∀ p ∈ broadcastSend clients m,
        p.2 = m ∧ ∃ c ∈ clients, c.readyState = WS_OPEN ∧ c.id = p.1) := by
  have hmem : ∀ c ∈ clients, c.readyState = WS_OPEN → (c.id, m) ∈ broadcastSend clients m := by
    intro c hc hop
    refine List.mem_map.mpr ⟨c, List.mem_filter.mpr ⟨hc, ?_⟩, rfl⟩
    simp [hop]
  refine ⟨hmem orig horig hopen, hmem, ?_⟩
  intro p hp
  rcases List.mem_map.mp hp with ⟨c, hc, rfl⟩
  rcases List.mem_filter.mp hc with ⟨hcl, hop⟩
  exact ⟨rfl, c, hcl, by simpa using hop, rfl⟩

/-- Claim C2, witness: with two open connections registered, the originator
(id 0) and the other connection (id 1) both receive the concrete message. -/
theorem fanout_completeness_witness :
    (0, broadcastObj (JSValue.str "row_42") (JSValue.str "revenue")
        (JSValue.num 500000) "T")
      ∈ broadcastSend [⟨0, 1⟩, ⟨1, 1⟩]
          (broadcastObj (JSValue.str "row_42") (JSValue.str "revenue")
            (JSValue.num 500000) "T") :=
  (fanout_completeness [⟨0, 1⟩, ⟨1, 1⟩]
    (broadcastObj (JSValue.str "row_42") (JSValue.str "revenue")
      (JSValue.num 500000) "T")
    ⟨0, 1⟩ (by decide) rfl).1

/-- Claim C3.  If the send to open connection K fails, every other open
connection whose transport accepts the write still receives the broadcast
(send failures surface asynchronously and never abort the `forEach`
enumeration), and K is no longer in the registry once its error event has been
handled by `clients.delete(ws)`. -/
theorem partial_failure_isolation (clients : List Client) (sendFails : Nat → Bool)
    (K : Client) (_hK : K ∈ clients) (hKopen : K.readyState = WS_OPEN)
    (hKfail : sendFails K.id = true) :
    (∀ c ∈ clients, c.readyState = WS_OPEN → sendFails c.id = false →
        c.id ∈ deliveredTo clients sendFails)
    ∧ K ∉ registryAfterBroadcast clients sendFails := by
  constructor
  · intro c hc hop hok
    refine List.mem_map.mpr ⟨c, List.mem_filter.mpr ⟨List.mem_filter.mpr ⟨hc, ?_⟩, ?_⟩, rfl⟩
    · simp [hop]
    · simp [hok]
  · intro hmem
    have h2 := (List.mem_filter.mp hmem).2
    rw [hKopen, hKfail] at h2
    simp [WS_OPEN] at h2

/-- Claim C3, witness: of three open connections the one with id 1 fails its
send; id 2 is still delivered to and the failing connection leaves the
registry. -/
theorem partial_failure_isolation_witness :
    2 ∈ deliveredTo [⟨0, 1⟩, ⟨1, 1⟩, ⟨2, 1⟩] (fun n => n == 1)
    ∧ (⟨1, 1⟩ : Client) ∉ registryAfterBroadcast [⟨0, 1⟩, ⟨1, 1⟩, ⟨2, 1⟩] (fun n => n == 1) :=
  ⟨(partial_failure_isolation [⟨0, 1⟩, ⟨1, 1⟩, ⟨2, 1⟩] (fun n => n == 1)
      ⟨1, 1⟩ (by decide) rfl rfl).1 ⟨2, 1⟩ (by decide) rfl rfl,
   (partial_failure_isolation [⟨0, 1⟩, ⟨1, 1⟩, ⟨2, 1⟩] (fun n => n == 1)
      ⟨1, 1⟩ (by decide) rfl rfl).2⟩

/-- Claim C5, counterexample.  A synthetic-generator tick with one connected
client constructs and sends an outbound `update` message whose field list is
exactly `type, rowId, columnId, newValue` — it carries no `timestamp` field,
contradicting the claim that every outbound update message does. -/
theorem synthetic_update_lacks_timestamp_cex :
    (tick (fun _ => 0) ⟨[⟨0, 1⟩], 0⟩).constructed
      = some (syntheticMessage "row_0" "revenue" (JSValue.num 0))
    ∧ ((syntheticMessage "row_0" "revenue" (JSValue.num 0)).map Prod.fst).contains
        "timestamp" = false := by
  constructor
  · rfl
  · decide

/-- Claim C5, amended.  An outbound `update` relayed from a client edit always
carries a `timestamp` field assigned from the relay's own clock — the handler
ignores any client-supplied timestamp field entirely — while the synthetic
periodic generator's outbound `update` messages carry no timestamp field at
all. -/
theorem timestamp_server_assigned
    (persist : JSValue → JSValue → JSValue → PersistOutcome) (now : String)
    (r c v ts1 ts2 : JSValue) (h : persist r c v = PersistOutcome.ok true) :
    (handleMessage persist now (Raw.msg (JSValue.str "update") r c v ts1)).broadcast
      = some (broadcastObj r c v now)
    ∧ ("timestamp", JSValue.str now) ∈ broadcastObj r c v now
    ∧ handleMessage persist now (Raw.msg (JSValue.str "update") r c v ts1)
      = handleMessage persist now (Raw.msg (JSValue.str "update") r c v ts2)
    ∧ ∀ (rowId columnId : String) (w : JSValue),
        ((syntheticMessage rowId columnId w).map Prod.fst).contains "timestamp" = false := by
  refine ⟨?_, ?_, ?_, ?_⟩
  · simp [handleMessage, h]
  · simp [broadcastObj]
  · simp [handleMessage]
  · intro rowId columnId w
    rfl

/-- Claim C5, witness instance of the amended theorem at concrete inputs. -/
theorem timestamp_server_assigned_witness :
    (handleMessage (fun _ _ _ => PersistOutcome.ok true) "2026-01-01T00:00:00.000Z"
        (Raw.msg (JSValue.str "update") (JSValue.str "row_42") (JSValue.str "revenue")
          (JSValue.num 500000) JSValue.undef)).broadcast
      = some (broadcastObj (JSValue.str "row_42") (JSValue.str "revenue")
          (JSValue.num 500000) "2026-01-01T00:00:00.000Z") :=
  (timestamp_server_assigned (fun _ _ _ => PersistOutcome.ok true)
    "2026-01-01T00:00:00.000Z" (JSValue.str "row_42") (JSValue.str "revenue")
    (JSValue.num 500000) JSValue.undef JSValue.null rfl).1

/-- Claim C9.  A generator tick with an empty `clients` set does nothing: the
`if (clients.size > 0)` guard short-circuits the whole body, so no random
draws are consumed, no message is constructed, no send is issued, and the
state is unchanged. -/
theorem generator_idle_when_no_clients (rand : Nat → Nat) (s : GenState)
    (h : s.clients = []) :
    tick rand s = ⟨s, none, []⟩ := by
  simp [tick, h]

/-- Claim C9, witness: a concrete tick over the empty registry is a no-op. -/
theorem generator_idle_when_no_clients_witness :
    tick (fun _ => 0) ⟨[], 5⟩ = ⟨⟨[], 5⟩, none, []⟩ :=
  generator_idle_when_no_clients (fun _ => 0) ⟨[], 5⟩ rfl

/-- Claim C8.  For every registry and every pattern of per-connection close
failures, the SIGINT handler's action sequence closes every registered
connection (with the going-away close), then closes the WebSocket server, the
MongoDB connection and the HTTP listener in that order, and finishes by
exiting with code 0; the sequence is identical whether or not individual
closes fail. -/
theorem graceful_shutdown_order (clients : List Nat) (closeFails : Nat → Bool) :
    (∀ id ∈ clients, ShutAction.closeClient id ∈ shutdownTrace clients closeFails)
    ∧ (∀ a ∈ (shutdownTrace clients closeFails).take clients.length,
        ∃ id ∈ clients, a = ShutAction.closeClient id)
    ∧ (shutdownTrace clients closeFails).drop clients.length
        = [ShutAction.closeWss, ShutAction.closeMongo, ShutAction.closeHttp,
           ShutAction.exitProc 0]
    ∧ (shutdownTrace clients closeFails).getLast? = some (ShutAction.exitProc 0)
    ∧ shutdownTrace clients closeFails = shutdownTrace clients (fun _ => false) := by
  have hlen : (clients.map ShutAction.closeClient).length = clients.length :=
    List.length_map _ _
  refine ⟨?_, ?_, ?_, ?_, rfl⟩
  · intro id hid
    exact List.mem_append_left _ (List.mem_map.mpr ⟨id, hid, rfl⟩)
  · intro a ha
    rw [shutdownTrace, ← hlen, List.take_left] at ha
    rcases List.mem_map.mp ha with ⟨id, hid, rfl⟩
    exact ⟨id, hid, rfl⟩
  · rw [shutdownTrace, ← hlen, List.drop_left]
  · rw [shutdownTrace, List.getLast?_append]
    rfl

/-- Folding deliveries over a trace appends the whole trace to the inbox of
every connection in `conns`. -/
theorem foldl_deliverOne (conns : List Nat) (trace : List Accepted)
    (init : Nat → List Accepted) (i : Nat) (hi : i ∈ conns) :
    trace.foldl (deliverOne conns) init i = init i ++ trace := by
  induction trace generalizing init with
  | nil => simp
  | cons u rest ih =>
      rw [List.foldl_cons, ih]
      simp [deliverOne, hi]

/-- A connection that is open for the whole execution receives exactly the
accepted trace, in acceptance order. -/
theorem runTrace_eq_of_mem (conns : List Nat) (trace : List Accepted) (i : Nat)
    (hi : i ∈ conns) : runTrace conns trace i = trace := by
  rw [runTrace, foldl_deliverOne conns trace _ i hi, List.nil_append]

/-- Applying one update to a grid changes exactly the targeted cell. -/
theorem lookupCell_applyUpdate (g : Grid) (u : Accepted) (r c : String) :
    lookupCell (applyUpdate g u) r c
      = if targets r c u then some u.value else lookupCell g r c := by
  by_cases h1 : u.rowId = r <;> by_cases h2 : u.columnId = c <;>
    simp [lookupCell, applyUpdate, targets, List.find?_cons, h1, h2]

/-- Replaying a message list over a grid leaves each cell at the value of the
last replayed update targeting it (or at its prior value when none does). -/
theorem lookupCell_foldl (r c : String) (trace : List Accepted) (g : Grid) :
    lookupCell (trace.foldl applyUpdate g) r c
      = ((trace.filter (targets r c)).getLast?).elim (lookupCell g r c)
          (fun u => some u.value) := by
  induction trace using List.reverseRecOn with
  | nil => simp
  | append_singleton l u ih =>
      rw [List.foldl_append, List.foldl_cons, List.foldl_nil,
        lookupCell_applyUpdate, List.filter_append]
      by_cases h : targets r c u
      · simp [h, List.getLast?_concat]
      · simp [h, ih]

/-- Claim C6.  Fix a relay execution whose accepted updates targeting cell
(r, c) are exactly u1 followed later by u2.  Every connection open for the
whole execution receives its broadcasts in acceptance order, so (a) the
updates it observes for that cell are exactly u1 then u2 — never u2 followed
by u1 — and (b) replaying its inbox leaves the cell at u2's value: the later
accepted write wins. -/
theorem ordering_last_write_wins (conns : List Nat) (trace : List Accepted)
    (r c : String) (u1 u2 : Accepted) (i : Nat) (hi : i ∈ conns)
    (hfilter : trace.filter (targets r c) = [u1, u2]) :
    (runTrace conns trace i).filter (targets r c) = [u1, u2]
    ∧ lookupCell ((runTrace conns trace i).foldl applyUpdate []) r c
        = some u2.value := by
  rw [runTrace_eq_of_mem conns trace i hi]
  refine ⟨hfilter, ?_⟩
  rw [lookupCell_foldl, hfilter]
  rfl

/-- Claim C6, witness: a concrete two-update trace on cell (row_1, revenue),
interleaved with an update to a different cell, as observed by connection 0. -/
theorem ordering_last_write_wins_witness :
    (runTrace [0] [⟨"row_1", "revenue", JSValue.num 1, 10⟩,
        ⟨"row_2", "profit", JSValue.num 7, 11⟩,
        ⟨"row_1", "revenue", JSValue.num 2, 12⟩] 0).filter (targets "row_1" "revenue")
      = [⟨"row_1", "revenue", JSValue.num 1, 10⟩, ⟨"row_1", "revenue", JSValue.num 2, 12⟩]
    ∧ lookupCell ((runTrace [0] [⟨"row_1", "revenue", JSValue.num 1, 10⟩,
          ⟨"row_2", "profit", JSValue.num 7, 11⟩,
          ⟨"row_1", "revenue", JSValue.num 2, 12⟩] 0).foldl applyUpdate [])
        "row_1" "revenue" = some (JSValue.num 2) :=
  ordering_last_write_wins [0]
    [⟨"row_1", "revenue", JSValue.num 1, 10⟩,
     ⟨"row_2", "profit", JSValue.num 7, 11⟩,
     ⟨"row_1", "revenue", JSValue.num 2, 12⟩]
    "row_1" "revenue"
    ⟨"row_1", "revenue", JSValue.num 1, 10⟩
    ⟨"row_1", "revenue", JSValue.num 2, 12⟩ 0 (by decide) (by decide)

/-- Claim C7.  After the push loop runs, `updateableColumns` holds exactly 93
distinct entries: the 13 base names and the four numbered families
`performance_metric_N`, `sales_metric_N`, `behavior_metric_N`, `kpi_N` for
N = 1..20, and nothing else. -/
theorem updateable_columns_exact :
    updateableColumns.length = 93 ∧ updateableColumns.Nodup
    ∧ ∀ s : String, s ∈ updateableColumns ↔
        (s ∈ ["revenue", "expenses", "profit", "employees",
              "status", "verified", "premium", "subscription_tier",
              "total_score", "risk_factor", "satisfaction_score",
              "engagement_rate", "conversion_rate"]
         ∨ ∃ n, 1 ≤ n ∧ n ≤ 20 ∧
            (s = "performance_metric_" ++ toString n
             ∨ s = "sales_metric_" ++ toString n
             ∨ s = "behavior_metric_" ++ toString n
             ∨ s = "kpi_" ++ toString n)) := by
  refine ⟨by decide, by decide, ?_⟩
  intro s
  rw [updateableColumns, List.mem_append]
  apply or_congr
  · rw [baseColumns]
  · rw [metricColumns]
    simp only [List.mem_flatMap, List.mem_range'_1, List.mem_cons,
      List.mem_singleton, List.not_mem_nil, or_false]
    constructor
    · rintro ⟨n, ⟨h1, h2⟩, h⟩
      exact ⟨n, h1, by omega, h⟩
    · rintro ⟨n, h1, h2, h⟩
      exact ⟨n, ⟨h1, by omega⟩, h⟩

end Relay
